import Mathlib

/-!
Verification of the wildfire-incident report pipeline
(`geospatial_api_integration_challenge.py`): a shallow embedding of the
fetch / extract / report / match stages, and proofs about the embedded
definitions.  Instants are epoch milliseconds (`ℤ`), float values are `ℚ`
with `none` standing for NaN/NaT, and side effects are made explicit as
effect traces and outcome values.
-/

set_option autoImplicit false

namespace Wildfire

/-- Tag recording whether a pandas timestamp value is timezone-naive or
timezone-aware (and for which zone).  `tz_localize` and `tz_convert` keep
the underlying instant and change only this tag. -/
inductive TZTag where
  | naive
  | utc
  | denver
deriving DecidableEq

/-- A pandas timestamp: the instant as epoch milliseconds together with its
timezone tag. -/
structure TS where
  millis : ℤ
  tz : TZTag
deriving DecidableEq

/-- Epoch milliseconds of 2024-03-10 09:00 UTC, when America/Denver enters
daylight saving time. -/
def dstStart2024 : ℤ := 1710061200000

/-- Epoch milliseconds of 2024-11-03 08:00 UTC, when America/Denver leaves
daylight saving time. -/
def dstEnd2024 : ℤ := 1730620800000

/-- UTC offset of America/Denver in hours at a given instant: -6 during the
2024 daylight-saving window (which contains the script's query window
2024-06-01 .. 2024-09-30), -7 otherwise. -/
def denverOffsetHours (t : ℤ) : ℤ :=
  if dstStart2024 ≤ t ∧ t < dstEnd2024 then -6 else -7

/-- Local America/Denver hour (0..23) of a UTC instant given in epoch
milliseconds, as produced by `tz_convert("America/Denver")` followed by
`strftime("%H:...")`. -/
def localHour (t : ℤ) : ℕ :=
  (((t + denverOffsetHours t * 3600000).fdiv 3600000) % 24).toNat

/-- Hour label "HH:00" (zero padded), as produced by `strftime("%H:00")`
and by `f"{str(h).zfill(2)}:00"`. -/
def hourLabel (h : ℕ) : String :=
  (if h < 10 then "0" ++ toString h else toString h) ++ ":00"

/-- The 24 fixed hour labels "00:00".."23:00" used to reindex the hour
counts and to order the correlation chart's x axis. -/
def hourLabels : List String := (List.range 24).map hourLabel

/-- One row of the filtered DataFrame produced by `fetch_fire_incidents`.
`none` models a missing value (NaN / NaT / None).  The `Hour` column is
absent (`none`) until `get_hour_distribution` adds it. -/
structure Row where
  IncidentName : String
  FireDiscoveryDateTime : Option TS
  FireOutDateTime : Option TS
  IncidentSize : Option ℚ
  POOState : String
  Latitude : Option ℚ
  Longitude : Option ℚ
  Hour : Option String
deriving DecidableEq

/-- Python comparison `a < b` where `a` may be NaN (`none`): every
comparison with NaN is `False`. -/
def nanLt (a : Option ℚ) (b : ℚ) : Bool :=
  match a with
  | some x => decide (x < b)
  | none => false

/-- Python comparison `a ≤ b` where `b` may be NaN (`none`): every
comparison with NaN is `False`. -/
def nanLe (a : ℚ) (b : Option ℚ) : Bool :=
  match b with
  | some y => decide (a ≤ y)
  | none => false

/-- Size categorization of `get_fire_affected_area_distribution`:
`if fire_size < 100: ... elif 100 <= fire_size < 1000: ... else: ...`,
with Python float-NaN comparison semantics. -/
def categorize (fire_size : Option ℚ) : String :=
  if nanLt fire_size 100 then "Small (<100 acres)"
  else if nanLe 100 fire_size && nanLt fire_size 1000 then "Medium (100-1000 acres)"
  else "Large (>1000 acres)"

/-- The three category labels in the order produced by
`value_counts().sort_index()` (alphabetical). -/
def categoryLabels : List String :=
  ["Large (>1000 acres)", "Medium (100-1000 acres)", "Small (<100 acres)"]

/-- The category column of the helper DataFrame built by
`get_fire_affected_area_distribution`: one label per row of the input. -/
def sizeCategories (rows : List Row) : List String :=
  rows.map (fun r => categorize r.IncidentSize)

/-- `df_fire["category"].value_counts().sort_index()`: observed categories
with their counts, ordered alphabetically (labels with zero count are not
listed by `value_counts`). -/
def sizeCategoryCounts (rows : List Row) : List (String × ℕ) :=
  (categoryLabels.filter (fun c => (sizeCategories rows).count c != 0)).map
    (fun c => (c, (sizeCategories rows).count c))

/-- The raw `properties` map of one GeoJSON feature, restricted to the keys
the extractor reads.  The outer `Option` is key presence (`props.get`
defaults apply when `none`); for `IncidentSize` the inner `Option` is
null-ness of a present value (a present null becomes NaN in the frame). -/
structure RawProps where
  IncidentName : Option String
  FireDiscoveryDateTime : Option ℤ
  FireOutDateTime : Option ℤ
  IncidentSize : Option (Option ℚ)
  POOState : Option String
deriving DecidableEq

/-- The `geometry` value of a raw feature: JSON null, or a dict that may or
may not carry a `coordinates` list (and possibly other keys, which only
matter for Python truthiness of the dict). -/
inductive GeomVal where
  | null
  | dict (coordinates : Option (List ℚ)) (hasOtherKeys : Bool)
deriving DecidableEq

/-- One raw GeoJSON feature of the response's `features` list. -/
structure RawFeature where
  properties : RawProps
  geometry : GeomVal
deriving DecidableEq

/-- Uncaught Python exceptions the extraction loop can raise. -/
inductive ExtractErr where
  | keyError
  | indexError
deriving DecidableEq

/-- Python truthiness of a `geometry` value: null and the empty dict are
falsy, a non-empty dict is truthy. -/
def geomTruthy : GeomVal → Bool
  | .null => false
  | .dict coords other => coords.isSome || other

/-- `feature["geometry"]["coordinates"][i] if feature["geometry"] else None`:
yields `none` when the geometry is falsy, raises `KeyError` when a truthy
geometry lacks `"coordinates"`, and raises `IndexError` when index `i` is
out of range. -/
def getCoord (g : GeomVal) (i : ℕ) : Except ExtractErr (Option ℚ) :=
  if geomTruthy g then
    match g with
    | .null => .error .keyError
    | .dict none _ => .error .keyError
    | .dict (some coords) _ =>
      match coords[i]? with
      | some x => .ok (some x)
      | none => .error .indexError
  else
    .ok none

/-- `props.get("IncidentSize", 0)` followed by the DataFrame conversion:
a missing key defaults to `0`, a present null becomes NaN (`none`), a
present number is kept. -/
def extractSize : Option (Option ℚ) → Option ℚ
  | none => some 0
  | some v => v

/-- Extraction of one raw feature into a filtered row, including the
`pd.to_datetime(..., errors="coerce", unit="ms")` conversion of the two
timestamp columns (producing naive UTC-origin timestamps, `none` for
missing/unparsable values). -/
def extractFeature (f : RawFeature) : Except ExtractErr Row := do
  let lat ← getCoord f.geometry 1
  let lon ← getCoord f.geometry 0
  Except.ok
    { IncidentName := f.properties.IncidentName.getD "Unknown"
      FireDiscoveryDateTime := f.properties.FireDiscoveryDateTime.map (fun m => ⟨m, TZTag.naive⟩)
      FireOutDateTime := f.properties.FireOutDateTime.map (fun m => ⟨m, TZTag.naive⟩)
      IncidentSize := extractSize f.properties.IncidentSize
      POOState := f.properties.POOState.getD "Unknown"
      Latitude := lat
      Longitude := lon
      Hour := none }

/-- Extraction of the whole features list; the first raised exception
aborts the loop (there is no try/except around it). -/
def extractAll : List RawFeature → Except ExtractErr (List Row)
  | [] => .ok []
  | f :: fs => do
    let r ← extractFeature f
    let rs ← extractAll fs
    .ok (r :: rs)

/-- The parsed JSON response body, restricted to the `features` key
(`none` models a response object without that key). -/
structure ParsedResponse where
  features : Option (List RawFeature)
deriving DecidableEq

/-- Observable side effects of the fetcher after a successful parse. -/
inductive Effect where
  | writeRaw (resp : ParsedResponse)
  | printMsg (msg : String)
  | writeFiltered (rows : List Row)
deriving DecidableEq

/-- How the fetcher's post-parse phase ends. -/
inductive FetchResult where
  | exited (code : ℕ)
  | crashed (e : ExtractErr)
  | ok (rows : List Row)
deriving DecidableEq

/-- Default path of the raw response file. -/
def rawFile : String := "fire_incidents.geojson"

/-- Default path of the filtered records file. -/
def filteredFile : String := "filtered_fires.json"

/-- `fetch_fire_incidents` after a successfully parsed response (the HTTP
request and JSON parse are external): dump the raw response, check the
`features` list, extract every feature, dump the filtered list, and return
the DataFrame rows.  Returns the ordered effect trace and the outcome. -/
def fetch_fire_incidents (resp : ParsedResponse) : List Effect × FetchResult :=
  let pre : List Effect :=
    [.writeRaw resp, .printMsg ("Raw fire data saved to " ++ rawFile)]
  let features := resp.features.getD []
  if features.isEmpty then
    (pre ++ [.printMsg "No fire data found."], .exited 1)
  else
    match extractAll features with
    | .error e => (pre, .crashed e)
    | .ok rows =>
      (pre ++ [.writeFiltered rows,
               .printMsg ("Filtered fire data saved to " ++ filteredFile)],
       .ok rows)

/-- Outcome of one reporter call: fatal "no data" exit, a rendered chart,
or an uncaught pandas `KeyError`. -/
inductive ReportOutcome (α : Type) where
  | exitNoData (msg : String)
  | rendered (chart : α)
  | keyError
deriving DecidableEq

/-- The per-row update performed in place by `get_hour_distribution` on the
DataFrame it receives: `FireDiscoveryDateTime` is overwritten with its
`tz_localize("UTC").tz_convert("America/Denver")` image (same instant,
Denver tag) and the `Hour` column is filled with the "HH:00" label
(`none`, i.e. NaN, for NaT timestamps). -/
def hourMutate (r : Row) : Row :=
  { r with
    FireDiscoveryDateTime := r.FireDiscoveryDateTime.map (fun ts => ⟨ts.millis, TZTag.denver⟩)
    Hour := r.FireDiscoveryDateTime.map (fun ts => hourLabel (localHour ts.millis)) }

/-- The non-null entries of the `Hour` column: one "HH:00" string per row
with a present `FireDiscoveryDateTime` (NaT rows produce NaN, which
`value_counts` drops). -/
def hourStrings (rows : List Row) : List String :=
  rows.filterMap (fun r => r.FireDiscoveryDateTime.map (fun ts => hourLabel (localHour ts.millis)))

/-- `df["Hour"].value_counts().reindex(labels, fill_value=0)`: the count of
each of the 24 fixed hour labels, in label order, zeros included. -/
def fire_counts (rows : List Row) : List (String × ℕ) :=
  hourLabels.map (fun lab => (lab, (hourStrings rows).count lab))

/-- `get_hour_distribution`: mutates the DataFrame it receives (see
`hourMutate`) and renders a bar chart of `fire_counts`; there is no
empty-input check, so the outcome is always a rendered chart. -/
def get_hour_distribution (rows : List Row) :
    List Row × ReportOutcome (List (String × ℕ)) :=
  (rows.map hourMutate, ReportOutcome.rendered (fire_counts rows))

/-- `get_fire_affected_area_distribution`: renders the bar chart of
`sizeCategoryCounts`.  On an empty input the helper DataFrame built from
the empty list has no "category" column, so indexing it raises an uncaught
`KeyError`; there is no "no data" exit path. -/
def get_fire_affected_area_distribution (rows : List Row) :
    ReportOutcome (List (String × ℕ)) :=
  if rows.isEmpty then ReportOutcome.keyError
  else ReportOutcome.rendered (sizeCategoryCounts rows)

/-- One entry of the correlation DataFrame `df_corr`. -/
structure CorrEntry where
  hour : String
  fire_size : ℚ
  duration_hours : Option ℚ
deriving DecidableEq

/-- The per-row body of `get_correlation`'s loop: rows with a missing
start time, end time, or size are skipped; otherwise both timestamps are
normalized to UTC and converted to America/Denver (which preserves the
instant, whether they were naive or already aware), the start hour is
formatted as "HH:00", and the duration in hours is computed from the
instant difference, replaced by `None` when negative. -/
def processRow (r : Row) : Option CorrEntry :=
  match r.FireDiscoveryDateTime, r.FireOutDateTime, r.IncidentSize with
  | some s, some e, some sz =>
    let d : ℚ := ((e.millis - s.millis : ℤ) : ℚ) / 3600000
    some ⟨hourLabel (localHour s.millis), sz, if d < 0 then none else some d⟩
  | _, _, _ => none

/-- `get_correlation`: builds `df_corr` from the processed rows, exits with
a "no data" message when it is empty, and otherwise renders the bubble
chart. -/
def get_correlation (rows : List Row) : ReportOutcome (List CorrEntry) :=
  let d := rows.filterMap processRow
  if d.isEmpty then
    ReportOutcome.exitNoData "No fire data available for the given time range."
  else
    ReportOutcome.rendered d

/-- One pair of the inner spatial join `intersected_fires`: the detection's
`oldest_detection` instant and the incident's `FireDiscoveryDateTime`
instant (both tz-aware America/Denver; comparison is on instants). -/
structure JoinedPair where
  oldest_detection : ℤ
  FireDiscoveryDateTime : ℤ
deriving DecidableEq

/-- `(intersected_fires["oldest_detection"] < intersected_fires["FireDiscoveryDateTime"]).sum()`. -/
def wfs_earlier_count (pairs : List JoinedPair) : ℕ :=
  (pairs.filter (fun p => decide (p.oldest_detection < p.FireDiscoveryDateTime))).length

/-- `(wfs_earlier_count / total_intersected_fires) * 100 if total_intersected_fires > 0 else 0`. -/
def wfs_earlier_percentage (pairs : List JoinedPair) : ℚ :=
  if 0 < pairs.length then
    ((wfs_earlier_count pairs : ℚ) / (pairs.length : ℚ)) * 100
  else 0

/-- Fixed-point formatting with two decimals of a nonnegative rational, as
Python's `f"{x:.2f}"` renders it (rounding convention only matters off the
values used here). -/
def format2 (q : ℚ) : String :=
  let n : ℤ := round (q * 100)
  toString (n / 100) ++ "." ++
    (if n % 100 < 10 then "0" ++ toString (n % 100) else toString (n % 100))

/-- The final printed percentage line of the matcher. -/
def wfs_percentage_line (pairs : List JoinedPair) : String :=
  "Percentage of fires first detected by WFS: " ++
    format2 (wfs_earlier_percentage pairs) ++ "%"

lemma localHour_lt (t : ℤ) : localHour t < 24 := by
  unfold localHour
  have h0 : 0 ≤ ((t + denverOffsetHours t * 3600000).fdiv 3600000) % 24 :=
    Int.emod_nonneg _ (by norm_num)
  have h1 : ((t + denverOffsetHours t * 3600000).fdiv 3600000) % 24 < 24 :=
    Int.emod_lt_of_pos _ (by norm_num)
  omega

lemma sum_map_addF {α : Type} (xs : List α) (f g : α → ℕ) :
    (xs.map (fun x => f x + g x)).sum = (xs.map f).sum + (xs.map g).sum := by
  induction xs with
  | nil => rfl
  | cons a l ih => simp only [List.map_cons, List.sum_cons, ih]; omega

lemma sum_map_zeroF {α : Type} (xs : List α) :
    (xs.map (fun _ => (0 : ℕ))).sum = 0 := by
  induction xs with
  | nil => rfl
  | cons a l ih => simp [ih]

lemma sum_indicator_zero {α : Type} [BEq α] [LawfulBEq α] (l : List α) (a : α)
    (h : a ∉ l) : (l.map (fun c => if a == c then (1 : ℕ) else 0)).sum = 0 := by
  induction l with
  | nil => rfl
  | cons b l ih =>
    simp only [List.mem_cons, not_or] at h
    obtain ⟨h1, h2⟩ := h
    have hb : (a == b) = false := beq_eq_false_iff_ne.mpr h1
    simp [hb, ih h2]

lemma sum_indicator_one {α : Type} [BEq α] [LawfulBEq α] (labels : List α) (a : α)
    (hn : labels.Nodup) (ha : a ∈ labels) :
    (labels.map (fun c => if a == c then (1 : ℕ) else 0)).sum = 1 := by
  induction labels with
  | nil => cases ha
  | cons b l ih =>
    rcases List.mem_cons.mp ha with h | h
    · subst h
      have hbl : a ∉ l := (List.nodup_cons.mp hn).1
      simp [sum_indicator_zero l a hbl]
    · have hn' := (List.nodup_cons.mp hn).2
      have hba : (a == b) = false := by
        refine beq_eq_false_iff_ne.mpr (fun hab => ?_)
        exact (List.nodup_cons.mp hn).1 (hab ▸ h)
      simp only [List.map_cons, List.sum_cons, hba, if_false]
      simpa using ih hn' h

lemma sum_counts {α : Type} [BEq α] [LawfulBEq α] (labels : List α) (l : List α)
    (hn : labels.Nodup) (hmem : ∀ x ∈ l, x ∈ labels) :
    (labels.map (fun c => l.count c)).sum = l.length := by
  induction l with
  | nil => simp only [List.count_nil]; exact sum_map_zeroF labels
  | cons a l ih =>
    have hmem' : ∀ x ∈ l, x ∈ labels := fun x hx => hmem x (List.mem_cons_of_mem _ hx)
    have ha : a ∈ labels := hmem a (List.mem_cons_self _ _)
    have hcc : labels.map (fun c => (a :: l).count c)
        = labels.map (fun c => l.count c + if a == c then 1 else 0) := by
      simp only [List.count_cons]
    rw [hcc, sum_map_addF, ih hmem', sum_indicator_one labels a hn ha]
    simp

lemma filter_zero_sum {α : Type} (labels : List α) (f : α → ℕ) :
    ((labels.filter (fun c => f c != 0)).map f).sum = (labels.map f).sum := by
  induction labels with
  | nil => rfl
  | cons a l ih =>
    by_cases h : f a = 0
    · simp [List.filter_cons, h, ih]
    · simp [List.filter_cons, h, ih]

lemma hourLabels_nodup : hourLabels.Nodup := by decide

lemma categoryLabels_nodup : categoryLabels.Nodup := by decide

lemma hourStrings_mem (rows : List Row) : ∀ x ∈ hourStrings rows, x ∈ hourLabels := by
  intro x hx
  simp only [hourStrings, List.mem_filterMap] at hx
  obtain ⟨r, _, hmap⟩ := hx
  cases hts : r.FireDiscoveryDateTime with
  | none => rw [hts] at hmap; cases hmap
  | some ts =>
    rw [hts] at hmap
    simp only [Option.map_some', Option.some.injEq] at hmap
    exact hmap ▸ List.mem_map.mpr
      ⟨localHour ts.millis, List.mem_range.mpr (localHour_lt _), rfl⟩

lemma hourStrings_length (rows : List Row) :
    (hourStrings rows).length = (rows.filterMap Row.FireDiscoveryDateTime).length := by
  induction rows with
  | nil => rfl
  | cons r l ih =>
    unfold hourStrings at ih ⊢
    cases h : r.FireDiscoveryDateTime <;> simp [List.filterMap_cons, h, ih]

lemma categorize_mem (s : Option ℚ) : categorize s ∈ categoryLabels := by
  unfold categorize categoryLabels
  split
  · simp
  · split <;> simp

/-- Claim C1: the size-distribution reporter's category for a present size
is determined exhaustively and mutually exclusively by the fixed
thresholds (size < 100 is Small, 100 ≤ size < 1000 is Medium, size ≥ 1000
is Large); in particular size 999.9 is Medium and size 1000.0 is Large. -/
theorem C1_size_thresholds :
    (∀ s : ℚ,
      (categorize (some s) = "Small (<100 acres)" ↔ s < 100)
      ∧ (categorize (some s) = "Medium (100-1000 acres)" ↔ 100 ≤ s ∧ s < 1000)
      ∧ (categorize (some s) = "Large (>1000 acres)" ↔ 1000 ≤ s))
    ∧ categorize (some (9999 / 10)) = "Medium (100-1000 acres)"
    ∧ categorize (some 1000) = "Large (>1000 acres)" := by
  have hSM : ("Small (<100 acres)" : String) ≠ "Medium (100-1000 acres)" := by decide
  have hSL : ("Small (<100 acres)" : String) ≠ "Large (>1000 acres)" := by decide
  have hMS : ("Medium (100-1000 acres)" : String) ≠ "Small (<100 acres)" := by decide
  have hML : ("Medium (100-1000 acres)" : String) ≠ "Large (>1000 acres)" := by decide
  have hLS : ("Large (>1000 acres)" : String) ≠ "Small (<100 acres)" := by decide
  have hLM : ("Large (>1000 acres)" : String) ≠ "Medium (100-1000 acres)" := by decide
  have hmain : ∀ s : ℚ,
      (categorize (some s) = "Small (<100 acres)" ↔ s < 100)
      ∧ (categorize (some s) = "Medium (100-1000 acres)" ↔ 100 ≤ s ∧ s < 1000)
      ∧ (categorize (some s) = "Large (>1000 acres)" ↔ 1000 ≤ s) := by
    intro s
    by_cases h1 : s < 100
    · have hc : categorize (some s) = "Small (<100 acres)" := by
        simp [categorize, nanLt, h1]
      rw [hc]
      exact ⟨⟨fun _ => h1, fun _ => rfl⟩,
        ⟨fun he => absurd he hSM, fun hm => absurd hm.1 (not_le.mpr h1)⟩,
        ⟨fun he => absurd he hSL,
          fun hl => absurd hl (not_le.mpr (h1.trans (by norm_num)))⟩⟩
    · have h1' : 100 ≤ s := not_lt.mp h1
      by_cases h2 : s < 1000
      · have hc : categorize (some s) = "Medium (100-1000 acres)" := by
          simp [categorize, nanLt, nanLe, h1, h2, h1']
        rw [hc]
        exact ⟨⟨fun he => absurd he hMS, fun hs => absurd hs (not_lt.mpr h1')⟩,
          ⟨fun _ => ⟨h1', h2⟩, fun _ => rfl⟩,
          ⟨fun he => absurd he hML, fun hl => absurd hl (not_le.mpr h2)⟩⟩
      · have h2' : 1000 ≤ s := not_lt.mp h2
        have hc : categorize (some s) = "Large (>1000 acres)" := by
          simp [categorize, nanLt, nanLe, h1, h2]
        rw [hc]
        exact ⟨⟨fun he => absurd he hLS, fun hs => absurd hs h1⟩,
          ⟨fun he => absurd he hLM, fun hm => absurd hm.2 h2⟩,
          ⟨fun _ => h2', fun _ => rfl⟩⟩
  exact ⟨hmain, (hmain _).2.1.mpr ⟨by norm_num, by norm_num⟩,
    (hmain _).2.2.mpr (by norm_num)⟩

/-- Claim C3: the 24 fixed hour-bucket counts of the hour-distribution
reporter (zeros included) sum exactly to the number of rows with a
present, parseable discovery time; rows with a missing discovery time
contribute to no bucket. -/
theorem C3_hour_counts_sum (rows : List Row) :
    ((fire_counts rows).map Prod.snd).sum
      = (rows.filterMap Row.FireDiscoveryDateTime).length := by
  have h1 : (fire_counts rows).map Prod.snd
      = hourLabels.map (fun lab => (hourStrings rows).count lab) := by
    simp [fire_counts, List.map_map, Function.comp]
  rw [h1,
    sum_counts hourLabels (hourStrings rows) hourLabels_nodup (hourStrings_mem rows),
    hourStrings_length]

/-- A row whose `IncidentSize` is present-but-null in the raw feature, so
NaN (`none`) in the DataFrame. -/
def rowNaNSize : Row :=
  { IncidentName := "NaNFire", FireDiscoveryDateTime := none, FireOutDateTime := none,
    IncidentSize := none, POOState := "US-CO", Latitude := none, Longitude := none,
    Hour := none }

/-- Claim C5 counterexample: a row with an absent (NaN) size is assigned
the "Large (>1000 acres)" category by the loop's `else` branch (both NaN
comparisons are False) and is counted, not excluded: on the one-row
dataset `[rowNaNSize]` the category counts are `[("Large (>1000 acres)", 1)]`
instead of the empty counts the claim requires. -/
theorem C5_counterexample :
    rowNaNSize.IncidentSize = none
    ∧ sizeCategoryCounts [rowNaNSize] = [("Large (>1000 acres)", 1)] := by decide

/-- Claim C5 amended: the size-distribution reporter classifies every row,
absent size included — the category counts always sum to the number of
rows.  An absent (NaN) size falls through both threshold tests into the
"Large (>1000 acres)" branch, and a raw feature missing the size key is
defaulted to size 0 by the extractor and hence counted as Small. -/
theorem C5_amended :
    (∀ rows : List Row, ((sizeCategoryCounts rows).map Prod.snd).sum = rows.length)
    ∧ categorize none = "Large (>1000 acres)"
    ∧ extractSize none = some 0
    ∧ categorize (extractSize none) = "Small (<100 acres)" := by
  refine ⟨fun rows => ?_, by decide, by decide, by decide⟩
  have h1 : (sizeCategoryCounts rows).map Prod.snd
      = (categoryLabels.filter (fun c => (sizeCategories rows).count c != 0)).map
          (fun c => (sizeCategories rows).count c) := by
    simp [sizeCategoryCounts, List.map_map, Function.comp]
  rw [h1, filter_zero_sum categoryLabels (fun c => (sizeCategories rows).count c),
    sum_counts categoryLabels (sizeCategories rows) categoryLabels_nodup
      (fun x hx => by
        obtain ⟨r, _, hr⟩ := List.mem_map.mp hx
        exact hr ▸ categorize_mem r.IncidentSize)]
  simp [sizeCategories]

/-- Claim C4: in the correlation reporter, a row with all three of
discovery time, out time and size present gets duration
`(out - discovery)` in hours, which is nonnegative whenever
`discovery_time ≤ out_time`; when `out_time < discovery_time` the duration
is made absent (`None`), never negative, and the row is still appended to
the plotted data. -/
theorem C4_duration_nonnegative (r : Row) (s e : TS) (sz : ℚ)
    (hd : r.FireDiscoveryDateTime = some s) (ho : r.FireOutDateTime = some e)
    (hs : r.IncidentSize = some sz) :
    (s.millis ≤ e.millis →
      processRow r = some ⟨hourLabel (localHour s.millis), sz,
        some (((e.millis - s.millis : ℤ) : ℚ) / 3600000)⟩
      ∧ 0 ≤ ((e.millis - s.millis : ℤ) : ℚ) / 3600000)
    ∧ (e.millis < s.millis →
      processRow r = some ⟨hourLabel (localHour s.millis), sz, none⟩
      ∧ ∀ rows : List Row, r ∈ rows →
        (⟨hourLabel (localHour s.millis), sz, none⟩ : CorrEntry)
          ∈ rows.filterMap processRow) := by
  have hpr : processRow r = some ⟨hourLabel (localHour s.millis), sz,
      if ((e.millis - s.millis : ℤ) : ℚ) / 3600000 < 0 then none
      else some (((e.millis - s.millis : ℤ) : ℚ) / 3600000)⟩ := by
    simp [processRow, hd, ho, hs]
  constructor
  · intro hle
    have hnn : 0 ≤ ((e.millis - s.millis : ℤ) : ℚ) / 3600000 := by
      apply div_nonneg _ (by norm_num)
      exact_mod_cast sub_nonneg.mpr hle
    rw [hpr, if_neg (not_lt.mpr hnn)]
    exact ⟨rfl, hnn⟩
  · intro hlt
    have hneg : ((e.millis - s.millis : ℤ) : ℚ) / 3600000 < 0 := by
      apply div_neg_of_neg_of_pos _ (by norm_num)
      exact_mod_cast sub_neg.mpr hlt
    have hpr' : processRow r = some ⟨hourLabel (localHour s.millis), sz, none⟩ := by
      rw [hpr, if_pos hneg]
    exact ⟨hpr', fun rows hr => List.mem_filterMap.mpr ⟨r, hr, hpr'⟩⟩

/-- A row with discovery at epoch 0, out one hour later, size 10. -/
def row2 : Row :=
  { IncidentName := "B", FireDiscoveryDateTime := some ⟨0, TZTag.naive⟩,
    FireOutDateTime := some ⟨3600000, TZTag.naive⟩, IncidentSize := some 10,
    POOState := "US-CO", Latitude := none, Longitude := none, Hour := none }

/-- Claim C4 witness: instantiating the duration theorem on a concrete row
whose fire lasted exactly one hour. -/
theorem C4_witness :
    processRow row2 = some ⟨hourLabel (localHour ((0 : ℤ))), 10,
      some ((((3600000 : ℤ) - (0 : ℤ) : ℤ) : ℚ) / 3600000)⟩
    ∧ 0 ≤ (((3600000 : ℤ) - (0 : ℤ) : ℤ) : ℚ) / 3600000 :=
  (C4_duration_nonnegative row2 ⟨0, TZTag.naive⟩ ⟨3600000, TZTag.naive⟩ 10
    rfl rfl rfl).1 (by decide)

/-- A row with a naive discovery timestamp, as the extractor produces. -/
def row1 : Row :=
  { IncidentName := "A", FireDiscoveryDateTime := some ⟨1717200000000, TZTag.naive⟩,
    FireOutDateTime := none, IncidentSize := some 50, POOState := "US-CO",
    Latitude := none, Longitude := none, Hour := none }

/-- Claim C7 counterexample: `get_hour_distribution` does not leave the
dataset it receives unchanged — on the one-row dataset `[row1]` it
overwrites the naive discovery timestamp with a Denver-aware one and fills
the `Hour` column, so the dataset the downstream reporters observe differs
from the one the extractor produced. -/
theorem C7_counterexample : (get_hour_distribution [row1]).1 ≠ [row1] := by decide

lemma processRow_hourMutate (r : Row) : processRow (hourMutate r) = processRow r := by
  rcases r with ⟨n, d, o, sz, st, la, lo, h⟩
  cases d <;> cases o <;> cases sz <;> rfl

/-- Claim C7 amended: `get_hour_distribution` does mutate the dataset it
receives (it overwrites `FireDiscoveryDateTime` with its timezone-aware
Denver image and adds the `Hour` column), but it preserves every
timestamp's instant and every other column, so the size-distribution and
correlation reporters still compute exactly the aggregates of the
extractor's output. -/
theorem C7_amended (rows : List Row) :
    (get_hour_distribution rows).1.map (fun r => r.FireDiscoveryDateTime.map TS.millis)
        = rows.map (fun r => r.FireDiscoveryDateTime.map TS.millis)
    ∧ (get_hour_distribution rows).1.map Row.IncidentSize = rows.map Row.IncidentSize
    ∧ sizeCategoryCounts ((get_hour_distribution rows).1) = sizeCategoryCounts rows
    ∧ (get_hour_distribution rows).1.filterMap processRow = rows.filterMap processRow := by
  refine ⟨?_, ?_, ?_, ?_⟩
  · simp only [get_hour_distribution, List.map_map]
    refine List.map_congr_left (fun r _ => ?_)
    rcases r with ⟨n, d, o, sz, st, la, lo, h⟩
    cases d <;> rfl
  · simp only [get_hour_distribution, List.map_map]
    exact List.map_congr_left (fun r _ => rfl)
  · have hcat : sizeCategories ((get_hour_distribution rows).1) = sizeCategories rows := by
      simp only [sizeCategories, get_hour_distribution, List.map_map]
      exact List.map_congr_left (fun r _ => rfl)
    unfold sizeCategoryCounts
    rw [hcat]
  · simp only [get_hour_distribution, List.filterMap_map]
    refine List.filterMap_congr (fun r _ => ?_)
    exact processRow_hourMutate r

/-- Claim C2: the matcher's percentage equals
`100 * earlier_count / total_joined_pairs` whenever there is at least one
joined pair, and is exactly 0 with zero joined pairs, in which case the
printed line reads "0.00%" and no division is performed. -/
theorem C2_percentage (pairs : List JoinedPair) :
    (0 < pairs.length →
      wfs_earlier_percentage pairs
        = 100 * (wfs_earlier_count pairs : ℚ) / (pairs.length : ℚ))
    ∧ (pairs.length = 0 →
      wfs_earlier_percentage pairs = 0
      ∧ wfs_percentage_line pairs
          = "Percentage of fires first detected by WFS: 0.00%") := by
  constructor
  · intro h
    unfold wfs_earlier_percentage
    rw [if_pos h]
    ring
  · intro h
    have hn : ¬ 0 < pairs.length := by omega
    have hp : wfs_earlier_percentage pairs = 0 := by
      unfold wfs_earlier_percentage
      rw [if_neg hn]
    refine ⟨hp, ?_⟩
    have h100 : round ((0 : ℚ) * 100) = 0 := by norm_num
    have hf : format2 0 = "0.00" := by
      simp only [format2, h100]
      norm_num
      rfl
    unfold wfs_percentage_line
    rw [hp, hf]
    rfl

/-- A single joined pair whose detection instant precedes discovery. -/
def pairs1 : List JoinedPair := [⟨0, 1⟩]

/-- Claim C2 witness: the percentage formula instantiated on a one-pair
join, and the zero-pair case instantiated on the empty join. -/
theorem C2_witness :
    wfs_earlier_percentage pairs1
      = 100 * (wfs_earlier_count pairs1 : ℚ) / (pairs1.length : ℚ)
    ∧ (wfs_earlier_percentage [] = 0
      ∧ wfs_percentage_line []
          = "Percentage of fires first detected by WFS: 0.00%") :=
  ⟨(C2_percentage pairs1).1 (by decide), (C2_percentage []).2 rfl⟩

/-- Claim C6 counterexample: on an empty filtered record set neither
distribution reporter reports "no data" and terminates — the hour
reporter unconditionally renders a chart (here the 24 all-zero bars) and
the size reporter hits an uncaught `KeyError` on the column-less empty
helper DataFrame; neither function contains a "no data" exit path. -/
theorem C6_counterexample :
    (get_hour_distribution ([] : List Row)).2
        = ReportOutcome.rendered (hourLabels.map (fun lab => (lab, 0)))
    ∧ get_fire_affected_area_distribution ([] : List Row) = ReportOutcome.keyError := by
  decide

/-- Claim C6 amended: the "no data" exits live elsewhere: the fetcher
terminates with exit code 1 and the message "No fire data found." when the
parsed response has an absent or empty features list (so an empty filtered
set never reaches the reporters), and the correlation reporter exits with
its own "no data" message when its aggregated set is empty; the
hour-distribution reporter itself always renders a chart. -/
theorem C6_amended (resp : ParsedResponse) (rows : List Row) :
    ((resp.features.getD []).isEmpty = true →
      (fetch_fire_incidents resp).2 = FetchResult.exited 1
      ∧ Effect.printMsg "No fire data found." ∈ (fetch_fire_incidents resp).1)
    ∧ ((rows.filterMap processRow).isEmpty = true →
      get_correlation rows
        = ReportOutcome.exitNoData "No fire data available for the given time range.")
    ∧ (get_hour_distribution rows).2 = ReportOutcome.rendered (fire_counts rows) := by
  refine ⟨fun h => ?_, fun h => ?_, rfl⟩
  · simp [fetch_fire_incidents, h]
  · simp [get_correlation, h]

/-- Claim C6 witness: the amended statement instantiated on a response
without a features key and on the empty record set. -/
theorem C6_witness :
    ((fetch_fire_incidents ⟨none⟩).2 = FetchResult.exited 1
      ∧ Effect.printMsg "No fire data found." ∈ (fetch_fire_incidents ⟨none⟩).1)
    ∧ get_correlation []
        = ReportOutcome.exitNoData "No fire data available for the given time range."
    ∧ (get_hour_distribution []).2 = ReportOutcome.rendered (fire_counts []) :=
  ⟨(C6_amended ⟨none⟩ []).1 (by decide), (C6_amended ⟨none⟩ []).2.1 (by decide),
    (C6_amended ⟨none⟩ []).2.2⟩

/-- Claim C8: when the parsed response has an absent or empty features
list, the fetcher prints "No fire data found." and terminates the process
with exit code 1. -/
theorem C8_empty_features (resp : ParsedResponse)
    (h : (resp.features.getD []).isEmpty = true) :
    (fetch_fire_incidents resp).2 = FetchResult.exited 1
    ∧ Effect.printMsg "No fire data found." ∈ (fetch_fire_incidents resp).1 := by
  simp [fetch_fire_incidents, h]

/-- Claim C8 witness: a response whose features list is present but empty
makes the fetcher exit with code 1 after printing the message. -/
theorem C8_witness :
    (fetch_fire_incidents ⟨some []⟩).2 = FetchResult.exited 1
    ∧ Effect.printMsg "No fire data found." ∈ (fetch_fire_incidents ⟨some []⟩).1 :=
  C8_empty_features ⟨some []⟩ (by decide)

/-- Claim C9: on every successfully parsed response the fetcher's very
first effect is writing the parsed response to the raw file — before the
features check, extraction, or filtered-file write — so the raw file is
written even on runs that then terminate (empty features) or crash
(extraction error). -/
theorem C9_raw_written_first (resp : ParsedResponse) :
    (fetch_fire_incidents resp).1.head? = some (Effect.writeRaw resp) := by
  unfold fetch_fire_incidents
  by_cases h : (resp.features.getD []).isEmpty
  · simp [h]
  · simp only [h, if_false]
    cases extractAll (resp.features.getD []) <;> rfl

/-- An empty raw properties map (every key missing). -/
def emptyProps : RawProps :=
  { IncidentName := none, FireDiscoveryDateTime := none, FireOutDateTime := none,
    IncidentSize := none, POOState := none }

/-- A feature whose geometry is a non-null, non-empty dict without a
"coordinates" key. -/
def featureNoCoords : RawFeature := ⟨emptyProps, GeomVal.dict none true⟩

/-- A feature whose geometry has a coordinates list with fewer than two
elements. -/
def featureShortCoords : RawFeature := ⟨emptyProps, GeomVal.dict (some [5]) false⟩

/-- Claim C10: feature extraction is not total — a truthy (non-null)
geometry without a "coordinates" entry raises an uncaught `KeyError`, a
coordinates list with fewer than two elements raises an uncaught
`IndexError`, and either exception aborts the whole fetch run instead of
skipping the record. -/
theorem C10_extraction_not_total :
    geomTruthy featureNoCoords.geometry = true
    ∧ featureNoCoords.geometry ≠ GeomVal.null
    ∧ extractFeature featureNoCoords = Except.error ExtractErr.keyError
    ∧ extractFeature featureShortCoords = Except.error ExtractErr.indexError
    ∧ (fetch_fire_incidents ⟨some [featureNoCoords]⟩).2
        = FetchResult.crashed ExtractErr.keyError :=
  ⟨rfl, by decide, rfl, rfl, rfl⟩

end Wildfire
